import Mathlib

/-!
# Instance monitor (`client/instancemonitor.go`)

A shallow embedding of the instance monitor of the skynet client: the actor
loop `mux`, the watch loop `monitorInstances`, and the attach / detach entry
points `Listen` and `RemoveListener`.

* A Go `map[string]V` is an association list with pairwise distinct keys
  (`GoMap V`).  Go leaves the iteration order of `range` over a map
  unspecified; the embedding iterates in the order of the entries and every
  statement below is one that does not depend on that order.
* `service.Service`, `Query.PathMatches`, `json.Unmarshal` and the doozer
  connection are external to the file.  The service type is a parameter `σ`
  whose `default` is Go's zero value, a query is its path predicate,
  `json.Unmarshal` is a parameter `unmarshal`, and the results of `Wait` and
  `Get` are inputs of the loop bodies.
* `go c.notify(n)` starts a goroutine.  `mux` is embedded as returning the list
  of goroutines it starts, oldest first; the order in which started goroutines
  run is chosen by a scheduler (`Sched`).
-/

namespace InstanceMonitor

/-- Go `map[string]V`: finitely many entries, pairwise distinct keys. -/
abbrev GoMap (V : Type) : Type := AList (fun _ : String => V)

/-- Go `[]byte`. -/
abbrev Bytes : Type := List Nat

/-- Go `int64` addition `x + 1` (two's complement wrap-around). -/
def int64Succ (x : Int) : Int := (x + 1 + 2 ^ 63) % 2 ^ 64 - 2 ^ 63

/-- The external `*Query`, seen through the only method the monitor calls. -/
structure Query where
  PathMatches : String → Bool

/-- Go `type InstanceNotificationType int`. -/
abbrev InstanceNotificationType : Type := Int

/-- Constant `InstanceAddNotification = iota`. -/
def InstanceAddNotification : InstanceNotificationType := 0

/-- Constant `InstanceUpdateNotification`. -/
def InstanceUpdateNotification : InstanceNotificationType := 1

/-- Constant `InstanceRemoveNotification`. -/
def InstanceRemoveNotification : InstanceNotificationType := 2

/-- The struct `InstanceMonitorNotification`. -/
structure InstanceMonitorNotification (σ : Type) where
  Path : String
  Service : σ
  /-- The field `Type` of the Go struct (a reserved word here). -/
  Typ : InstanceNotificationType

/-- The fields of `*InstanceListener` that the monitor reads or writes. -/
structure InstanceListener (σ : Type) where
  query : Query
  Instances : GoMap σ

/-- The mutable fields of `InstanceMonitor` (the channels are the arguments of
the loop bodies below). -/
structure Monitor (σ : Type) where
  clients : GoMap (InstanceListener σ)
  instances : GoMap σ

/-- A goroutine started by `go c.notify(notification)`: the key under which the
receiving listener is registered, and the notification passed to it. -/
abbrev Dispatch (σ : Type) : Type := String × InstanceMonitorNotification σ

/-- The state of a fresh monitor built by `NewInstanceMonitor`: both maps empty. -/
def NewInstanceMonitor (σ : Type) : Monitor σ := ⟨∅, ∅⟩

/-- The `switch notification.Type` statement of `mux` (lines 55-60). -/
def applyNotification {σ : Type} (instances : GoMap σ)
    (n : InstanceMonitorNotification σ) : GoMap σ :=
  if n.Typ = InstanceAddNotification ∨ n.Typ = InstanceUpdateNotification then
    instances.insert n.Path n.Service
  else if n.Typ = InstanceRemoveNotification then
    instances.erase n.Path
  else
    instances

/-- The body of the fan-out loop of `mux` (lines 63-65) for one entry of
`im.clients`: a goroutine is started when the query of the client matches. -/
def fanOutStep {σ : Type} (n : InstanceMonitorNotification σ) (acc : List (Dispatch σ))
    (e : Sigma fun _ : String => InstanceListener σ) : List (Dispatch σ) :=
  if e.2.query.PathMatches n.Path then acc ++ [(e.1, n)] else acc

/-- The fan-out loop of `mux` (lines 62-66): the goroutines started while
ranging over `im.clients`. -/
def fanOut {σ : Type} (clients : GoMap (InstanceListener σ))
    (n : InstanceMonitorNotification σ) : List (Dispatch σ) :=
  clients.entries.foldl (fanOutStep n) []

/-- The `case notification := <-im.notificationChan` branch of `mux`: the new
monitor state and the goroutines started. -/
def muxNotification {σ : Type} (im : Monitor σ) (n : InstanceMonitorNotification σ) :
    Monitor σ × List (Dispatch σ) :=
  ({ im with instances := applyNotification im.instances n }, fanOut im.clients n)

/-- The body of the loop of `mux` over `im.instances` (lines 70-72) for one
entry `path, s` of the map: `listener.Instances[path] = s` when the query
matches. -/
def snapshotStep {σ : Type} (l : InstanceListener σ) (e : Sigma fun _ : String => σ) :
    InstanceListener σ :=
  if l.query.PathMatches e.1 then { l with Instances := l.Instances.insert e.1 e.2 } else l

/-- The `case listener := <-im.listChan` branch of `mux` (lines 68-75): the
monitor state and the listener after the loop over `im.instances`. -/
def muxListener {σ : Type} (im : Monitor σ) (listener : InstanceListener σ) :
    Monitor σ × InstanceListener σ :=
  (im, im.instances.entries.foldl snapshotStep listener)

/-- The function `RemoveListener`: `delete(im.clients, id)`. -/
def RemoveListener {σ : Type} (im : Monitor σ) (id : String) : Monitor σ :=
  { im with clients := im.clients.erase id }

/-- The last statement of `Listen` (line 167): `im.clients[id] = l`, executed by
the caller after the round trip through `mux`. -/
def recordListener {σ : Type} (im : Monitor σ) (id : String) (l : InstanceListener σ) :
    Monitor σ :=
  { im with clients := im.clients.insert id l }

/-- `mux` receiving the notifications `ns` one after the other: the final state
and all goroutines started, oldest first. -/
def muxNotifications {σ : Type} (im : Monitor σ) :
    List (InstanceMonitorNotification σ) → Monitor σ × List (Dispatch σ)
  | [] => (im, [])
  | n :: ns =>
    let r := muxNotification im n
    let rest := muxNotifications r.1 ns
    (rest.1, r.2 ++ rest.2)

/-- The external `doozer.Event`, with the result of its method `IsDel()` as a
field. -/
structure Event where
  Rev : Int
  Path : String
  Body : Bytes
  IsDel : Bool

/-- What a call `im.doozer.Wait(watchPath, rev+1)` returned: the event and
whether the error is non-nil. -/
structure WaitResult where
  ev : Event
  err : Bool

/-- The startup loop of `monitorInstances` (lines 98-113) over `ifc.files`,
each file paired with what `Get` returned for it (`none` for an error). -/
def initialWalk {σ : Type} (unmarshal : Bytes → Option σ) (instances : GoMap σ) :
    List (String × Option Bytes) → GoMap σ
  | [] => instances
  | (file, got) :: files =>
    match got with
    | none => initialWalk unmarshal instances files
    | some buf =>
      match unmarshal buf with
      | none => initialWalk unmarshal instances files
      | some s => initialWalk unmarshal (instances.insert file s) files

/-- The revision passed to `Wait` by the watch loop holding `rev` (line 120). -/
def waitRevision (rev : Int) : Int := int64Succ rev

/-- The body of the watch loop of `monitorInstances` after `Wait` returned
(lines 121-156): the new value of `rev` and the notification sent on
`notificationChan`, if any.  `instances` is `im.instances` as the loop reads
it. -/
def watchIteration {σ : Type} [Inhabited σ] (unmarshal : Bytes → Option σ)
    (instances : GoMap σ) (_rev : Int) (r : WaitResult) :
    Int × Option (InstanceMonitorNotification σ) :=
  let rev := r.ev.Rev
  if r.err then (rev, none)
  else if r.ev.IsDel then
    (rev, some ⟨r.ev.Path, (instances.lookup r.ev.Path).getD default,
      InstanceRemoveNotification⟩)
  else
    match unmarshal r.ev.Body with
    | none => (rev, none)
    | some s =>
      (rev, some ⟨r.ev.Path, s,
        if (instances.lookup r.ev.Path).isSome then InstanceUpdateNotification
        else InstanceAddNotification⟩)

/-- The monitor together with the watch loop variable `rev`, and the record of
what was sent and started so far. -/
structure System (σ : Type) where
  im : Monitor σ
  rev : Int
  sent : List (InstanceMonitorNotification σ)
  started : List (Dispatch σ)

/-- One watch event handled to completion: the watch loop body runs on the
result of `Wait`, and `mux` applies the notification it sent (if any) before
anything else happens. -/
def handleEvent {σ : Type} [Inhabited σ] (unmarshal : Bytes → Option σ)
    (st : System σ) (r : WaitResult) : System σ :=
  let out := watchIteration unmarshal st.im.instances st.rev r
  match out.2 with
  | none => { st with rev := out.1 }
  | some n =>
    let m := muxNotification st.im n
    { im := m.1, rev := out.1, sent := st.sent ++ [n], started := st.started ++ m.2 }

/-- A sequence of watch events handled one at a time. -/
def handleEvents {σ : Type} [Inhabited σ] (unmarshal : Bytes → Option σ)
    (st : System σ) (rs : List WaitResult) : System σ :=
  rs.foldl (handleEvent unmarshal) st

/-- The system when the watch loop starts: the monitor left by startup, the
revision held by the loop, nothing sent or started yet. -/
def System.start {σ : Type} (im : Monitor σ) (rev : Int) : System σ := ⟨im, rev, [], []⟩

/-- A step of an execution in which one listener is being attached by `Listen`
under some id: `mux` applies a notification, `mux` serves the listener sent on
`listChan` (lines 68-75), or the caller of `Listen` executes `im.clients[id] = l`
(line 167). -/
inductive AttachStep (σ : Type) where
  | notification (n : InstanceMonitorNotification σ)
  | snapshot
  | record

/-- The monitor, the listener being attached, and the goroutines started so
far. -/
structure AttachState (σ : Type) where
  im : Monitor σ
  listener : InstanceListener σ
  started : List (Dispatch σ)

/-- One step of an execution attaching a listener under `id`. -/
def attachStep {σ : Type} (id : String) (st : AttachState σ) : AttachStep σ → AttachState σ
  | .notification n =>
    { st with im := (muxNotification st.im n).1,
              started := st.started ++ (muxNotification st.im n).2 }
  | .snapshot =>
    { st with im := (muxListener st.im st.listener).1,
              listener := (muxListener st.im st.listener).2 }
  | .record => { st with im := recordListener st.im id st.listener }

/-- An execution attaching a listener under `id`, step after step. -/
def attachRun {σ : Type} (id : String) (st : AttachState σ) (steps : List (AttachStep σ)) :
    AttachState σ :=
  steps.foldl (attachStep id) st

/-- The goroutines started by `go c.notify(n)` that have not run yet, oldest
first, and the calls of `notify` that have run, in the order they ran. -/
structure Sched (σ : Type) where
  pending : List (Dispatch σ)
  ran : List (Dispatch σ)

/-- A step of an execution of `mux` with its goroutines: `mux` applies a
notification, or the scheduler picks the pending goroutine at position `i` and
runs it.  Go orders a `go` statement before the start of the goroutine it
creates and leaves the order between different goroutines to the scheduler. -/
inductive SchedStep (σ : Type) where
  | mux (n : InstanceMonitorNotification σ)
  | run (i : Nat)

/-- One step of an execution of `mux` with its goroutines. -/
def schedStep {σ : Type} (st : Monitor σ × Sched σ) : SchedStep σ → Monitor σ × Sched σ
  | .mux n =>
    ((muxNotification st.1 n).1,
      { st.2 with pending := st.2.pending ++ (muxNotification st.1 n).2 })
  | .run i =>
    match st.2.pending.get? i with
    | none => st
    | some g => (st.1, { pending := st.2.pending.eraseIdx i, ran := st.2.ran ++ [g] })

/-- An execution of `mux` with its goroutines, step after step. -/
def schedRun {σ : Type} (st : Monitor σ × Sched σ) (steps : List (SchedStep σ)) :
    Monitor σ × Sched σ :=
  steps.foldl schedStep st

/-- The last notification of `ns` whose `Path` is `p`, if there is one. -/
def lastFor {σ : Type} (p : String) (ns : List (InstanceMonitorNotification σ)) :
    Option (InstanceMonitorNotification σ) :=
  ns.reverse.find? (fun n => decide (n.Path = p))

/-- The goroutines of `ds` started on the listener registered under `id`. -/
def startedFor {σ : Type} (id : String) (ds : List (Dispatch σ)) : List (Dispatch σ) :=
  ds.filter (fun d => decide (d.1 = id))

/-! ## Concrete values used to instantiate the statements -/

/-- A query matching every path. -/
def queryAll : Query := ⟨fun _ => true⟩

/-- A query matching the path `/services/a` only. -/
def queryA : Query := ⟨fun p => p == "/services/a"⟩

/-- A listener with query `queryAll` and no instances yet. -/
def listenerAll : InstanceListener Nat := ⟨queryAll, ∅⟩

/-- A listener with query `queryA` and no instances yet. -/
def listenerA : InstanceListener Nat := ⟨queryA, ∅⟩

/-- Services are natural numbers; `unmarshalNat` decodes a one-byte body to its
byte and fails on every other body. -/
def unmarshalNat : Bytes → Option Nat
  | [b] => some b
  | _ => none

/-- A put event for `path` with the given body, returned without error. -/
def putEvent (rev : Int) (path : String) (body : Bytes) : WaitResult :=
  ⟨⟨rev, path, body, false⟩, false⟩

/-- A deletion event for `path`, returned without error. -/
def delEvent (rev : Int) (path : String) : WaitResult :=
  ⟨⟨rev, path, [], true⟩, false⟩

/-! ## The instance map under `mux` -/

section Lemmas

variable {σ : Type}

theorem lookup_applyNotification_same (m : GoMap σ) (n : InstanceMonitorNotification σ) :
    (applyNotification m n).lookup n.Path =
      if n.Typ = InstanceAddNotification ∨ n.Typ = InstanceUpdateNotification then
        some n.Service
      else if n.Typ = InstanceRemoveNotification then none
      else m.lookup n.Path := by
  unfold applyNotification
  split
  · exact AList.lookup_insert m
  · split
    · exact AList.lookup_erase n.Path m
    · rfl

theorem lookup_applyNotification_ne (m : GoMap σ) (n : InstanceMonitorNotification σ)
    (p : String) (h : n.Path ≠ p) :
    (applyNotification m n).lookup p = m.lookup p := by
  unfold applyNotification
  split
  · exact AList.lookup_insert_ne (Ne.symm h)
  · split
    · exact AList.lookup_erase_ne (Ne.symm h)
    · rfl

theorem muxNotifications_clients (im : Monitor σ) (ns : List (InstanceMonitorNotification σ)) :
    (muxNotifications im ns).1.clients = im.clients := by
  induction ns generalizing im with
  | nil => rfl
  | cons n ns ih => simp [muxNotifications, ih, muxNotification]

theorem muxNotifications_append (im : Monitor σ) (xs ys : List (InstanceMonitorNotification σ)) :
    muxNotifications im (xs ++ ys) =
      ((muxNotifications (muxNotifications im xs).1 ys).1,
        (muxNotifications im xs).2 ++ (muxNotifications (muxNotifications im xs).1 ys).2) := by
  induction xs generalizing im with
  | nil => simp [muxNotifications]
  | cons x xs ih => simp [muxNotifications, ih, List.append_assoc]

theorem lookup_muxNotifications_of_no_path (im : Monitor σ)
    (ns : List (InstanceMonitorNotification σ)) (p : String)
    (h : ∀ n ∈ ns, n.Path ≠ p) :
    (muxNotifications im ns).1.instances.lookup p = im.instances.lookup p := by
  induction ns generalizing im with
  | nil => rfl
  | cons n ns ih =>
    have h1 : n.Path ≠ p := h n (List.mem_cons_self _ _)
    have h2 : ∀ x ∈ ns, x.Path ≠ p := fun x hx => h x (List.mem_cons_of_mem _ hx)
    simp only [muxNotifications]
    rw [ih _ h2]
    exact lookup_applyNotification_ne im.instances n p h1

theorem lastFor_eq_none {p : String} {ns : List (InstanceMonitorNotification σ)} :
    lastFor p ns = none ↔ ∀ n ∈ ns, n.Path ≠ p := by
  simp [lastFor]

theorem lastFor_eq_some {p : String} {ns : List (InstanceMonitorNotification σ)}
    {n : InstanceMonitorNotification σ} (h : lastFor p ns = some n) :
    n.Path = p ∧ ∃ pre post, ns = pre ++ n :: post ∧ ∀ x ∈ post, x.Path ≠ p := by
  unfold lastFor at h
  rw [List.find?_eq_some] at h
  obtain ⟨hp, as, bs, hrev, has⟩ := h
  refine ⟨by simpa using hp, bs.reverse, as.reverse, ?_, ?_⟩
  · have := congrArg List.reverse hrev
    simpa using this
  · intro x hx
    have := has x (List.mem_reverse.mp hx)
    simpa using this

/-- The instance map at `p` after `mux` applied `pre ++ n :: post`, where `n`
is the last notification for `p`. -/
theorem lookup_muxNotifications_split (im : Monitor σ)
    (pre post : List (InstanceMonitorNotification σ)) (n : InstanceMonitorNotification σ)
    (p : String) (hpost : ∀ x ∈ post, x.Path ≠ p) :
    (muxNotifications im (pre ++ n :: post)).1.instances.lookup p =
      (applyNotification (muxNotifications im pre).1.instances n).lookup p := by
  rw [muxNotifications_append]
  simp only [muxNotifications]
  rw [lookup_muxNotifications_of_no_path _ post p hpost]
  rfl

theorem lookup_muxNotifications_put (im : Monitor σ)
    (ns : List (InstanceMonitorNotification σ)) (p : String)
    (n : InstanceMonitorNotification σ) (h : lastFor p ns = some n)
    (hput : n.Typ = InstanceAddNotification ∨ n.Typ = InstanceUpdateNotification) :
    (muxNotifications im ns).1.instances.lookup p = some n.Service := by
  obtain ⟨hp, pre, post, rfl, hpost⟩ := lastFor_eq_some h
  rw [lookup_muxNotifications_split im pre post n p hpost, ← hp,
    lookup_applyNotification_same, if_pos hput]

theorem lookup_muxNotifications_remove (im : Monitor σ)
    (ns : List (InstanceMonitorNotification σ)) (p : String)
    (n : InstanceMonitorNotification σ) (h : lastFor p ns = some n)
    (hrem : n.Typ = InstanceRemoveNotification) :
    (muxNotifications im ns).1.instances.lookup p = none := by
  obtain ⟨hp, pre, post, rfl, hpost⟩ := lastFor_eq_some h
  have hnot : ¬ (n.Typ = InstanceAddNotification ∨ n.Typ = InstanceUpdateNotification) := by
    rw [hrem]; decide
  rw [lookup_muxNotifications_split im pre post n p hpost, ← hp,
    lookup_applyNotification_same, if_neg hnot, if_pos hrem]

/-! ## The snapshot loop and the fan-out loop -/

theorem muxListener_eq_foldl (im : Monitor σ) (l : InstanceListener σ) :
    (muxListener im l).2 = im.instances.entries.foldl snapshotStep l := rfl

theorem snapshotStep_query (l : InstanceListener σ) (e : Sigma fun _ : String => σ) :
    (snapshotStep l e).query = l.query := by
  unfold snapshotStep
  split <;> rfl

theorem foldl_snapshotStep_query (es : List (Sigma fun _ : String => σ))
    (l : InstanceListener σ) : (es.foldl snapshotStep l).query = l.query := by
  induction es generalizing l with
  | nil => rfl
  | cons e es ih => rw [List.foldl_cons, ih, snapshotStep_query]

theorem lookup_snapshotStep (l : InstanceListener σ) (e : Sigma fun _ : String => σ)
    (p : String) :
    (snapshotStep l e).Instances.lookup p =
      if l.query.PathMatches e.1 = true ∧ p = e.1 then some e.2 else l.Instances.lookup p := by
  unfold snapshotStep
  by_cases hq : l.query.PathMatches e.1 = true
  · by_cases hp : p = e.1
    · subst hp
      simp [hq, AList.lookup_insert]
    · simp [hq, hp, AList.lookup_insert_ne hp]
  · simp [hq]

theorem lookup_foldl_snapshotStep (es : List (Sigma fun _ : String => σ))
    (hnd : es.NodupKeys) (l : InstanceListener σ) (p : String) :
    (es.foldl snapshotStep l).Instances.lookup p =
      if l.query.PathMatches p = true ∧ p ∈ es.keys then es.dlookup p
      else l.Instances.lookup p := by
  induction es generalizing l with
  | nil => simp
  | cons e es ih =>
    obtain ⟨k, v⟩ := e
    rw [List.nodupKeys_cons] at hnd
    obtain ⟨hk, hes⟩ := hnd
    rw [List.foldl_cons, ih hes, snapshotStep_query, lookup_snapshotStep]
    by_cases hp : p = k
    · subst hp
      have hnone : List.dlookup p es = none := List.dlookup_eq_none.mpr hk
      by_cases hq : l.query.PathMatches p = true
      · simp [hq, hk, List.dlookup_cons_eq]
      · simp [hq]
    · have hne : p ≠ (⟨k, v⟩ : Sigma fun _ : String => σ).1 := hp
      by_cases hq : l.query.PathMatches p = true
      · by_cases hm : p ∈ es.keys
        · simp [hq, hm, hp, List.dlookup_cons_ne es _ hne]
        · simp [hq, hm, hp]
      · simp [hq, hp]

/-- The listener after the `listChan` branch of `mux`: at every path, the
instance map where the query matches, and the listener's own entry elsewhere. -/
theorem lookup_muxListener (im : Monitor σ) (l : InstanceListener σ) (p : String) :
    (muxListener im l).2.Instances.lookup p =
      if l.query.PathMatches p = true ∧ p ∈ im.instances then im.instances.lookup p
      else l.Instances.lookup p := by
  rw [muxListener_eq_foldl, lookup_foldl_snapshotStep _ im.instances.nodupKeys]
  have hmem : p ∈ im.instances.entries.keys ↔ p ∈ im.instances := Iff.rfl
  by_cases hq : l.query.PathMatches p = true
  · by_cases hm : p ∈ im.instances
    · simp [hq, hm, hmem.mpr hm, AList.lookup]
    · simp [hq, hm, mt hmem.mp hm]
  · simp [hq]

theorem fanOut_eq_foldl (clients : GoMap (InstanceListener σ))
    (n : InstanceMonitorNotification σ) :
    fanOut clients n = clients.entries.foldl (fanOutStep n) [] := rfl

theorem startedFor_append (id : String) (xs ys : List (Dispatch σ)) :
    startedFor id (xs ++ ys) = startedFor id xs ++ startedFor id ys := by
  simp [startedFor]

theorem startedFor_foldl_fanOutStep (es : List (Sigma fun _ : String => InstanceListener σ))
    (hnd : es.NodupKeys) (n : InstanceMonitorNotification σ) (acc : List (Dispatch σ))
    (id : String) :
    startedFor id (es.foldl (fanOutStep n) acc) =
      startedFor id acc ++
        (match es.dlookup id with
          | some c => if c.query.PathMatches n.Path then [(id, n)] else []
          | none => []) := by
  induction es generalizing acc with
  | nil => simp
  | cons e es ih =>
    obtain ⟨k, c⟩ := e
    rw [List.nodupKeys_cons] at hnd
    obtain ⟨hk, hes⟩ := hnd
    rw [List.foldl_cons, ih hes]
    by_cases hid : id = k
    · subst hid
      have hnone : List.dlookup id es = none := List.dlookup_eq_none.mpr hk
      rw [hnone, List.dlookup_cons_eq]
      unfold fanOutStep
      by_cases hq : c.query.PathMatches n.Path = true
      · simp [hq, startedFor]
      · simp [hq]
    · have hne : id ≠ (⟨k, c⟩ : Sigma fun _ : String => InstanceListener σ).1 := hid
      rw [List.dlookup_cons_ne es _ hne]
      unfold fanOutStep
      by_cases hq : c.query.PathMatches n.Path = true
      · simp [hq, startedFor, Ne.symm hid]
      · simp [hq]

/-- The goroutines one notification starts on the listener registered under
`id`: one, carrying the notification itself, exactly when the query matches. -/
theorem startedFor_fanOut (clients : GoMap (InstanceListener σ))
    (n : InstanceMonitorNotification σ) (id : String) :
    startedFor id (fanOut clients n) =
      match clients.lookup id with
      | some c => if c.query.PathMatches n.Path then [(id, n)] else []
      | none => [] := by
  rw [fanOut_eq_foldl, startedFor_foldl_fanOutStep _ clients.nodupKeys]
  rfl

/-! ## The watch loop -/

theorem watchIteration_typ {σ : Type} [Inhabited σ] (unmarshal : Bytes → Option σ)
    (m : GoMap σ) (rev : Int) (r : WaitResult) (n : InstanceMonitorNotification σ)
    (h : (watchIteration unmarshal m rev r).2 = some n) :
    n.Typ = InstanceAddNotification ∨ n.Typ = InstanceUpdateNotification ∨
      n.Typ = InstanceRemoveNotification := by
  unfold watchIteration at h
  by_cases herr : r.err = true
  · simp [herr] at h
  · by_cases hdel : r.ev.IsDel = true
    · simp [herr, hdel] at h
      subst h
      exact Or.inr (Or.inr rfl)
    · cases hb : unmarshal r.ev.Body with
      | none => simp [herr, hdel, hb] at h
      | some s =>
        simp [herr, hdel, hb] at h
        subst h
        by_cases hl : (AList.lookup r.ev.Path m).isSome = true
        · simp [hl]
        · simp [hl]

theorem watchIteration_put {σ : Type} [Inhabited σ] (unmarshal : Bytes → Option σ)
    (m : GoMap σ) (rev : Int) (r : WaitResult) (s : σ)
    (herr : r.err = false) (hdel : r.ev.IsDel = false) (hbody : unmarshal r.ev.Body = some s) :
    (watchIteration unmarshal m rev r).2 =
      some ⟨r.ev.Path, s,
        if (m.lookup r.ev.Path).isSome then InstanceUpdateNotification
        else InstanceAddNotification⟩ := by
  simp [watchIteration, herr, hdel, hbody]

theorem watchIteration_del {σ : Type} [Inhabited σ] (unmarshal : Bytes → Option σ)
    (m : GoMap σ) (rev : Int) (r : WaitResult)
    (herr : r.err = false) (hdel : r.ev.IsDel = true) :
    (watchIteration unmarshal m rev r).2 =
      some ⟨r.ev.Path, (m.lookup r.ev.Path).getD default, InstanceRemoveNotification⟩ := by
  simp [watchIteration, herr, hdel]

theorem handleEvent_of_none {σ : Type} [Inhabited σ] (unmarshal : Bytes → Option σ)
    (st : System σ) (r : WaitResult)
    (h : (watchIteration unmarshal st.im.instances st.rev r).2 = none) :
    handleEvent unmarshal st r =
      { st with rev := (watchIteration unmarshal st.im.instances st.rev r).1 } := by
  unfold handleEvent
  simp only [h]

theorem handleEvent_of_some {σ : Type} [Inhabited σ] (unmarshal : Bytes → Option σ)
    (st : System σ) (r : WaitResult) (n : InstanceMonitorNotification σ)
    (h : (watchIteration unmarshal st.im.instances st.rev r).2 = some n) :
    handleEvent unmarshal st r =
      { im := (muxNotification st.im n).1,
        rev := (watchIteration unmarshal st.im.instances st.rev r).1,
        sent := st.sent ++ [n],
        started := st.started ++ (muxNotification st.im n).2 } := by
  unfold handleEvent
  simp only [h]

/-- Handling watch events one at a time: the monitor is the one `mux` reaches
by applying the notifications sent, the goroutines started are those of `mux`,
and every notification sent is an Add, an Update or a Remove. -/
theorem handleEvents_spec {σ : Type} [Inhabited σ] (unmarshal : Bytes → Option σ)
    (rs : List WaitResult) (st : System σ) :
    ∃ new : List (InstanceMonitorNotification σ),
      (handleEvents unmarshal st rs).sent = st.sent ++ new ∧
      (handleEvents unmarshal st rs).im = (muxNotifications st.im new).1 ∧
      (handleEvents unmarshal st rs).started = st.started ++ (muxNotifications st.im new).2 ∧
      ∀ n ∈ new, n.Typ = InstanceAddNotification ∨ n.Typ = InstanceUpdateNotification ∨
        n.Typ = InstanceRemoveNotification := by
  induction rs generalizing st with
  | nil => exact ⟨[], by simp [handleEvents, muxNotifications]⟩
  | cons r rs ih =>
    have hstep : handleEvents unmarshal st (r :: rs) =
        handleEvents unmarshal (handleEvent unmarshal st r) rs := rfl
    rw [hstep]
    cases h : (watchIteration unmarshal st.im.instances st.rev r).2 with
    | none =>
      rw [handleEvent_of_none unmarshal st r h]
      obtain ⟨new, h1, h2, h3, h4⟩ := ih
        { st with rev := (watchIteration unmarshal st.im.instances st.rev r).1 }
      exact ⟨new, h1, h2, h3, h4⟩
    | some n =>
      rw [handleEvent_of_some unmarshal st r n h]
      obtain ⟨new, h1, h2, h3, h4⟩ := ih
        { im := (muxNotification st.im n).1,
          rev := (watchIteration unmarshal st.im.instances st.rev r).1,
          sent := st.sent ++ [n],
          started := st.started ++ (muxNotification st.im n).2 }
      refine ⟨n :: new, ?_, ?_, ?_, ?_⟩
      · simpa using h1
      · simpa [muxNotifications] using h2
      · simpa [muxNotifications, List.append_assoc] using h3
      · intro x hx
        rcases List.mem_cons.mp hx with rfl | hx
        · exact watchIteration_typ unmarshal _ _ _ _ h
        · exact h4 x hx

theorem handleEvent_put {σ : Type} [Inhabited σ] (unmarshal : Bytes → Option σ)
    (st : System σ) (rev : Int) (p : String) (body : Bytes) (s : σ)
    (hbody : unmarshal body = some s) :
    handleEvent unmarshal st ⟨⟨rev, p, body, false⟩, false⟩ =
      { im := { st.im with instances := st.im.instances.insert p s },
        rev := rev,
        sent := st.sent ++ [⟨p, s,
          if (st.im.instances.lookup p).isSome then InstanceUpdateNotification
          else InstanceAddNotification⟩],
        started := st.started ++ fanOut st.im.clients ⟨p, s,
          if (st.im.instances.lookup p).isSome then InstanceUpdateNotification
          else InstanceAddNotification⟩ } := by
  have h := watchIteration_put unmarshal st.im.instances st.rev
    ⟨⟨rev, p, body, false⟩, false⟩ s rfl rfl hbody
  rw [handleEvent_of_some unmarshal st _ _ h]
  have happly : ∀ t : InstanceNotificationType,
      (t = InstanceAddNotification ∨ t = InstanceUpdateNotification) →
      applyNotification st.im.instances ⟨p, s, t⟩ = st.im.instances.insert p s := by
    intro t ht
    unfold applyNotification
    rw [if_pos ht]
  by_cases hl : (AList.lookup p st.im.instances).isSome = true
  · simp [muxNotification, watchIteration, hl, hbody, happly _ (Or.inr rfl)]
  · simp [muxNotification, watchIteration, hl, hbody, happly _ (Or.inl rfl)]

theorem handleEvent_del {σ : Type} [Inhabited σ] (unmarshal : Bytes → Option σ)
    (st : System σ) (rev : Int) (p : String) (body : Bytes) :
    handleEvent unmarshal st ⟨⟨rev, p, body, true⟩, false⟩ =
      { im := { st.im with instances := st.im.instances.erase p },
        rev := rev,
        sent := st.sent ++
          [⟨p, (st.im.instances.lookup p).getD default, InstanceRemoveNotification⟩],
        started := st.started ++ fanOut st.im.clients
          ⟨p, (st.im.instances.lookup p).getD default, InstanceRemoveNotification⟩ } := by
  have h := watchIteration_del unmarshal st.im.instances st.rev
    ⟨⟨rev, p, body, true⟩, false⟩ rfl rfl
  rw [handleEvent_of_some unmarshal st _ _ h]
  have happly : ∀ v : σ,
      applyNotification st.im.instances ⟨p, v, InstanceRemoveNotification⟩ =
        st.im.instances.erase p := by
    intro v
    have hne : ¬ (InstanceRemoveNotification = InstanceAddNotification ∨
        InstanceRemoveNotification = InstanceUpdateNotification) := by decide
    unfold applyNotification
    rw [if_neg hne, if_pos rfl]
  simp [muxNotification, watchIteration, happly]

end Lemmas

/-! ## Attach, the instance map, fan-out and detach -/

section Claims

variable {σ : Type}

/-- C1: for every instance map reached by `mux` applying notifications `ns`,
every query and every listener whose `Instances` is empty when it is received
on `listChan`, after the listener branch of `mux` the listener holds at every
path exactly the entry of the instance map when its query matches the path and
nothing otherwise; its query is untouched and the monitor state (instance map
included) is unchanged. -/
theorem C1_attach_snapshot (im0 : Monitor σ) (ns : List (InstanceMonitorNotification σ))
    (listener : InstanceListener σ) (hempty : listener.Instances = ∅) :
    (∀ path : String,
      (muxListener (muxNotifications im0 ns).1 listener).2.Instances.lookup path =
        if listener.query.PathMatches path
        then (muxNotifications im0 ns).1.instances.lookup path else none) ∧
    (muxListener (muxNotifications im0 ns).1 listener).2.query = listener.query ∧
    (muxListener (muxNotifications im0 ns).1 listener).1 = (muxNotifications im0 ns).1 := by
  refine ⟨fun path => ?_, ?_, rfl⟩
  · rw [lookup_muxListener, hempty, AList.lookup_empty]
    by_cases hq : listener.query.PathMatches path = true
    · by_cases hm : path ∈ (muxNotifications im0 ns).1.instances
      · simp [hq, hm]
      · simp [hq, hm, AList.lookup_eq_none.mpr hm]
    · simp [hq]
  · rw [muxListener_eq_foldl, foldl_snapshotStep_query]

/-- Witness of C1: a listener for `/services/a` attached after `mux` applied an
Add for `/services/a` and an Add for `/services/b`. -/
theorem C1_attach_snapshot_witness :
    listenerA.Instances = ∅ ∧
    (muxListener (muxNotifications (NewInstanceMonitor Nat)
        [⟨"/services/a", 1, InstanceAddNotification⟩,
         ⟨"/services/b", 2, InstanceAddNotification⟩]).1 listenerA).2.Instances.lookup
          "/services/a" = some 1 ∧
    (muxListener (muxNotifications (NewInstanceMonitor Nat)
        [⟨"/services/a", 1, InstanceAddNotification⟩,
         ⟨"/services/b", 2, InstanceAddNotification⟩]).1 listenerA).2.Instances.lookup
          "/services/b" = none :=
  ⟨rfl,
   ((C1_attach_snapshot (NewInstanceMonitor Nat)
      [⟨"/services/a", 1, InstanceAddNotification⟩,
       ⟨"/services/b", 2, InstanceAddNotification⟩] listenerA rfl).1 "/services/a").trans rfl,
   ((C1_attach_snapshot (NewInstanceMonitor Nat)
      [⟨"/services/a", 1, InstanceAddNotification⟩,
       ⟨"/services/b", 2, InstanceAddNotification⟩] listenerA rfl).1 "/services/b").trans rfl⟩

/-- C3: after `mux` applied the notifications `ns` in order to a monitor with
instance map `m0`, the map at a path `p` is (i) the `Service` of the last
notification for `p` when that one is an Add or an Update, (ii) absent when
that one is a Remove, and (iii) `m0` at `p` when `ns` has no notification for
`p`. -/
theorem C3_instance_map_reflects_notifications (im0 : Monitor σ)
    (ns : List (InstanceMonitorNotification σ)) (p : String) :
    (∀ n, lastFor p ns = some n →
      (n.Typ = InstanceAddNotification ∨ n.Typ = InstanceUpdateNotification) →
      (muxNotifications im0 ns).1.instances.lookup p = some n.Service) ∧
    (∀ n, lastFor p ns = some n → n.Typ = InstanceRemoveNotification →
      (muxNotifications im0 ns).1.instances.lookup p = none) ∧
    (lastFor p ns = none →
      (muxNotifications im0 ns).1.instances.lookup p = im0.instances.lookup p) :=
  ⟨fun n h hput => lookup_muxNotifications_put im0 ns p n h hput,
   fun n h hrem => lookup_muxNotifications_remove im0 ns p n h hrem,
   fun h => lookup_muxNotifications_of_no_path im0 ns p (lastFor_eq_none.mp h)⟩

/-- Witness of C3: an Add then an Update for `/services/a`; the same followed
by a Remove; and a path no notification names. -/
theorem C3_instance_map_reflects_notifications_witness :
    (muxNotifications (NewInstanceMonitor Nat)
      [⟨"/services/a", 1, InstanceAddNotification⟩,
       ⟨"/services/a", 2, InstanceUpdateNotification⟩]).1.instances.lookup "/services/a"
        = some 2 ∧
    (muxNotifications (NewInstanceMonitor Nat)
      [⟨"/services/a", 1, InstanceAddNotification⟩,
       ⟨"/services/a", 2, InstanceUpdateNotification⟩,
       ⟨"/services/a", 2, InstanceRemoveNotification⟩]).1.instances.lookup "/services/a"
        = none ∧
    (muxNotifications (recordListener (NewInstanceMonitor Nat) "x" listenerAll)
      [⟨"/services/a", 1, InstanceAddNotification⟩]).1.instances.lookup "/services/b"
        = (recordListener (NewInstanceMonitor Nat) "x" listenerAll).instances.lookup
            "/services/b" :=
  ⟨(C3_instance_map_reflects_notifications (NewInstanceMonitor Nat)
      [⟨"/services/a", 1, InstanceAddNotification⟩,
       ⟨"/services/a", 2, InstanceUpdateNotification⟩] "/services/a").1
      ⟨"/services/a", 2, InstanceUpdateNotification⟩ rfl (Or.inr rfl),
   (C3_instance_map_reflects_notifications (NewInstanceMonitor Nat)
      [⟨"/services/a", 1, InstanceAddNotification⟩,
       ⟨"/services/a", 2, InstanceUpdateNotification⟩,
       ⟨"/services/a", 2, InstanceRemoveNotification⟩] "/services/a").2.1
      ⟨"/services/a", 2, InstanceRemoveNotification⟩ rfl rfl,
   (C3_instance_map_reflects_notifications
      (recordListener (NewInstanceMonitor Nat) "x" listenerAll)
      [⟨"/services/a", 1, InstanceAddNotification⟩] "/services/b").2.2 rfl⟩

/-- C4: when `mux` applies a notification `n`, the goroutines it starts on the
listener registered under an id are exactly one `notify(n)`, carrying `n`
itself, when the query of that listener matches `n.Path`, and none when it does
not match; nothing is started under an id that is not registered. -/
theorem C4_fan_out_filtered_by_query (im : Monitor σ) (n : InstanceMonitorNotification σ)
    (id : String) :
    startedFor id (muxNotification im n).2 =
      match im.clients.lookup id with
      | some c => if c.query.PathMatches n.Path then [(id, n)] else []
      | none => [] :=
  startedFor_fanOut im.clients n id

/-- C10: `RemoveListener` is a total function on monitor states; it leaves the
state unchanged when the id is not registered; applying it twice is the same as
applying it once; the instance map and the clients registered under other ids
are unchanged; and the id is not registered afterwards. -/
theorem C10_remove_listener_idempotent (im : Monitor σ) (id : String) :
    (im.clients.lookup id = none → RemoveListener im id = im) ∧
    RemoveListener (RemoveListener im id) id = RemoveListener im id ∧
    (RemoveListener im id).instances = im.instances ∧
    (∀ other : String, other ≠ id →
      (RemoveListener im id).clients.lookup other = im.clients.lookup other) ∧
    (RemoveListener im id).clients.lookup id = none := by
  have herase : ∀ m : GoMap (InstanceListener σ), m.lookup id = none → m.erase id = m := by
    intro m h
    apply AList.ext
    exact List.kerase_of_not_mem_keys (AList.lookup_eq_none.mp h)
  refine ⟨fun h => ?_, ?_, rfl, fun other h => AList.lookup_erase_ne h,
    AList.lookup_erase id im.clients⟩
  · unfold RemoveListener
    rw [herase im.clients h]
  · unfold RemoveListener
    simp only
    rw [herase (im.clients.erase id) (AList.lookup_erase id im.clients)]

/-- Witness of C10: from a monitor with one client registered under `x`,
detaching an id that was never attached changes nothing, and detaching `y`
leaves the client registered under `x` in place. -/
theorem C10_remove_listener_idempotent_witness :
    (recordListener (NewInstanceMonitor Nat) "x" listenerAll).clients.lookup "y" = none ∧
    RemoveListener (recordListener (NewInstanceMonitor Nat) "x" listenerAll) "y" =
      recordListener (NewInstanceMonitor Nat) "x" listenerAll ∧
    "x" ≠ "y" ∧
    (RemoveListener (recordListener (NewInstanceMonitor Nat) "x" listenerAll) "y").clients.lookup
      "x" = (recordListener (NewInstanceMonitor Nat) "x" listenerAll).clients.lookup "x" :=
  ⟨rfl,
   (C10_remove_listener_idempotent
      (recordListener (NewInstanceMonitor Nat) "x" listenerAll) "y").1 rfl,
   by decide,
   (C10_remove_listener_idempotent
      (recordListener (NewInstanceMonitor Nat) "x" listenerAll) "y").2.2.2.1 "x" (by decide)⟩

end Claims

/-! ## Classification, removal and skipped events in the watch loop -/

section WatchClaims

variable {σ : Type} [Inhabited σ]

/-- C2 (amended): watch events are handled one at a time from any monitor state
left by startup.  A put event whose body decodes is sent as a notification for
its path carrying the decoded service, and its type is decided by the last
notification sent before it for the same path: Update after an Add or an
Update, Add after a Remove, and, when none was sent before, Update when the
path is in the instance map left by startup and Add when it is not. -/
theorem C2_add_update_classification (unmarshal : Bytes → Option σ) (im0 : Monitor σ)
    (rev0 : Int) (pre : List WaitResult) (r : WaitResult) (s : σ)
    (herr : r.err = false) (hdel : r.ev.IsDel = false)
    (hbody : unmarshal r.ev.Body = some s) :
    (watchIteration unmarshal (handleEvents unmarshal (System.start im0 rev0) pre).im.instances
        (handleEvents unmarshal (System.start im0 rev0) pre).rev r).2 =
      some ⟨r.ev.Path, s,
        match lastFor r.ev.Path (handleEvents unmarshal (System.start im0 rev0) pre).sent with
        | some k =>
          if k.Typ = InstanceRemoveNotification then InstanceAddNotification
          else InstanceUpdateNotification
        | none =>
          if (im0.instances.lookup r.ev.Path).isSome then InstanceUpdateNotification
          else InstanceAddNotification⟩ := by
  obtain ⟨new, h1, h2, -, h4⟩ := handleEvents_spec unmarshal pre (System.start im0 rev0)
  have hsent : (handleEvents unmarshal (System.start im0 rev0) pre).sent = new := by
    simpa [System.start] using h1
  have him : (handleEvents unmarshal (System.start im0 rev0) pre).im =
      (muxNotifications im0 new).1 := h2
  rw [watchIteration_put unmarshal _ _ r s herr hdel hbody, hsent, him]
  cases hl : lastFor r.ev.Path new with
  | none =>
    rw [lookup_muxNotifications_of_no_path im0 new r.ev.Path (lastFor_eq_none.mp hl)]
  | some k =>
    have hk : k ∈ new := by
      obtain ⟨-, a, b, rfl, -⟩ := lastFor_eq_some hl
      simp
    by_cases hrem : k.Typ = InstanceRemoveNotification
    · rw [lookup_muxNotifications_remove im0 new r.ev.Path k hl hrem]
      simp [hrem]
    · have hput : k.Typ = InstanceAddNotification ∨ k.Typ = InstanceUpdateNotification := by
        rcases h4 k hk with h | h | h
        · exact Or.inl h
        · exact Or.inr h
        · exact absurd h hrem
      rw [lookup_muxNotifications_put im0 new r.ev.Path k hl hput]
      simp [hrem]

/-- Witness of C2: from an empty monitor, a second put for `/services/a` is sent
as an Update. -/
theorem C2_add_update_classification_witness :
    (putEvent 2 "/services/a" [2]).err = false ∧
    (putEvent 2 "/services/a" [2]).ev.IsDel = false ∧
    unmarshalNat (putEvent 2 "/services/a" [2]).ev.Body = some 2 ∧
    (watchIteration unmarshalNat
        (handleEvents unmarshalNat (System.start (NewInstanceMonitor Nat) 0)
          [putEvent 1 "/services/a" [1]]).im.instances
        (handleEvents unmarshalNat (System.start (NewInstanceMonitor Nat) 0)
          [putEvent 1 "/services/a" [1]]).rev (putEvent 2 "/services/a" [2])).2 =
      some ⟨"/services/a", 2, InstanceUpdateNotification⟩ :=
  ⟨rfl, rfl, rfl,
   (C2_add_update_classification unmarshalNat (NewInstanceMonitor Nat) 0
      [putEvent 1 "/services/a" [1]] (putEvent 2 "/services/a" [2]) 2 rfl rfl rfl).trans rfl⟩

/-- Counterexample to C2 as stated: startup stored `/services/a` in the instance
map through the initial walk; the first notification sent for that path, for a
put event, is an Update and not an Add. -/
theorem C2_first_put_after_walk_is_update :
    (handleEvents unmarshalNat
        (System.start ⟨∅, initialWalk unmarshalNat ∅ [("/services/a", some [1])]⟩ 0)
        [putEvent 1 "/services/a" [2]]).sent =
      [⟨"/services/a", 2, InstanceUpdateNotification⟩] ∧
    InstanceUpdateNotification ≠ InstanceAddNotification :=
  ⟨rfl, by decide⟩

/-- C9: a watch event that is not a deletion and whose body does not decode
sends nothing on `notificationChan`; handling it leaves the monitor (instance
map and clients) unchanged, so the entry at its path is retained, and starts no
goroutine. -/
theorem C9_undecodable_put_is_skipped (unmarshal : Bytes → Option σ) (st : System σ)
    (r : WaitResult) (hdel : r.ev.IsDel = false) (hbody : unmarshal r.ev.Body = none) :
    (watchIteration unmarshal st.im.instances st.rev r).2 = none ∧
    (handleEvent unmarshal st r).sent = st.sent ∧
    (handleEvent unmarshal st r).started = st.started ∧
    (handleEvent unmarshal st r).im = st.im ∧
    (handleEvent unmarshal st r).im.instances.lookup r.ev.Path =
      st.im.instances.lookup r.ev.Path := by
  have hnone : (watchIteration unmarshal st.im.instances st.rev r).2 = none := by
    unfold watchIteration
    by_cases herr : r.err = true
    · simp [herr]
    · simp [herr, hdel, hbody]
  rw [handleEvent_of_none unmarshal st r hnone]
  exact ⟨hnone, rfl, rfl, rfl, rfl⟩

/-- Witness of C9: a put for `/services/a` with a two-byte body, which
`unmarshalNat` rejects, after a put that stored `1` there. -/
theorem C9_undecodable_put_is_skipped_witness :
    (putEvent 2 "/services/a" [7, 7]).ev.IsDel = false ∧
    unmarshalNat (putEvent 2 "/services/a" [7, 7]).ev.Body = none ∧
    (handleEvent unmarshalNat
        (handleEvents unmarshalNat
          (System.start (recordListener (NewInstanceMonitor Nat) "x" listenerAll) 0)
          [putEvent 1 "/services/a" [1]])
        (putEvent 2 "/services/a" [7, 7])).started =
      [("x", ⟨"/services/a", 1, InstanceAddNotification⟩)] :=
  ⟨rfl, rfl,
   (C9_undecodable_put_is_skipped unmarshalNat
      (handleEvents unmarshalNat
        (System.start (recordListener (NewInstanceMonitor Nat) "x" listenerAll) 0)
        [putEvent 1 "/services/a" [1]])
      (putEvent 2 "/services/a" [7, 7]) rfl rfl).2.2.1.trans rfl⟩

/-- C8, evaluated: the watch loop holds revision 5, so it called `Wait` from
revision 6; the call returned an error together with the zero event.  The loop
sends nothing, but it has stored the revision of that event, and its next call
of `Wait` is from revision 1, not 6. -/
theorem C8_wait_error_resumes_from_returned_revision :
    waitRevision 5 = 6 ∧
    (watchIteration unmarshalNat ∅ 5 ⟨⟨0, "", [], false⟩, true⟩).2 = none ∧
    waitRevision (watchIteration unmarshalNat ∅ 5 ⟨⟨0, "", [], false⟩, true⟩).1 = 1 :=
  ⟨by decide, rfl, by decide⟩

/-- C5: (1) for a path present in the instance map, a deletion event for it
makes the watch loop send a notification of type Remove for that path carrying
the service stored there, and once `mux` applied it the path is absent from the
map.  (2) From a map without `p` and with a listener registered under `id`
whose query matches `p`, handling a put of `p` decoding to `s1`, a put of `p`
decoding to `s2` and a deletion of `p`, one at a time, starts on that listener
exactly three goroutines, in this order: Add with `s1`, Update with `s2`, Remove
with `s2`. -/
theorem C5_remove_carries_last_known (unmarshal : Bytes → Option σ) :
    (∀ (im : Monitor σ) (rev : Int) (r : WaitResult) (s : σ),
      r.err = false → r.ev.IsDel = true → im.instances.lookup r.ev.Path = some s →
      (watchIteration unmarshal im.instances rev r).2 =
          some ⟨r.ev.Path, s, InstanceRemoveNotification⟩ ∧
        (muxNotification im ⟨r.ev.Path, s, InstanceRemoveNotification⟩).1.instances.lookup
          r.ev.Path = none) ∧
    (∀ (im : Monitor σ) (rev e1 e2 e3 : Int) (id p : String) (c : InstanceListener σ)
      (b1 b2 b3 : Bytes) (s1 s2 : σ),
      im.instances.lookup p = none → im.clients.lookup id = some c →
      c.query.PathMatches p = true → unmarshal b1 = some s1 → unmarshal b2 = some s2 →
      startedFor id (handleEvents unmarshal (System.start im rev)
          [⟨⟨e1, p, b1, false⟩, false⟩, ⟨⟨e2, p, b2, false⟩, false⟩,
           ⟨⟨e3, p, b3, true⟩, false⟩]).started =
        [(id, ⟨p, s1, InstanceAddNotification⟩), (id, ⟨p, s2, InstanceUpdateNotification⟩),
         (id, ⟨p, s2, InstanceRemoveNotification⟩)]) := by
  constructor
  · intro im rev r s herr hdel hl
    constructor
    · rw [watchIteration_del unmarshal im.instances rev r herr hdel, hl]
      rfl
    · have h := lookup_applyNotification_same im.instances
        ⟨r.ev.Path, s, InstanceRemoveNotification⟩
      have hne : ¬ (InstanceRemoveNotification = InstanceAddNotification ∨
          InstanceRemoveNotification = InstanceUpdateNotification) := by decide
      simp only [if_neg hne] at h
      simpa [muxNotification] using h
  · intro im rev e1 e2 e3 id p c b1 b2 b3 s1 s2 hp hc hq hb1 hb2
    have hrun : ∀ (st : System σ) (r1 r2 r3 : WaitResult),
        handleEvents unmarshal st [r1, r2, r3] =
          handleEvent unmarshal (handleEvent unmarshal (handleEvent unmarshal st r1) r2) r3 :=
      fun _ _ _ _ => rfl
    rw [hrun, handleEvent_put unmarshal _ e1 p b1 s1 hb1,
      handleEvent_put unmarshal _ e2 p b2 s2 hb2, handleEvent_del unmarshal _ e3 p b3]
    simp only [System.start, hp, AList.lookup_insert, Option.isSome_some, Option.isSome_none,
      Option.getD_some, List.nil_append, startedFor_append, startedFor_fanOut, hc, hq]
    simp

/-- Witness of C5: a deletion of `/services/a` from a map holding `7` there, and
the three events for `/services/a` seen by a listener registered under `x`. -/
theorem C5_remove_carries_last_known_witness :
    (watchIteration unmarshalNat ((∅ : GoMap Nat).insert "/services/a" 7) 0
      (delEvent 1 "/services/a")).2 =
        some ⟨"/services/a", 7, InstanceRemoveNotification⟩ ∧
    startedFor "x" (handleEvents unmarshalNat
        (System.start (recordListener (NewInstanceMonitor Nat) "x" listenerA) 0)
        [⟨⟨1, "/services/a", [1], false⟩, false⟩, ⟨⟨2, "/services/a", [2], false⟩, false⟩,
         ⟨⟨3, "/services/a", [], true⟩, false⟩]).started =
      [("x", ⟨"/services/a", 1, InstanceAddNotification⟩),
       ("x", ⟨"/services/a", 2, InstanceUpdateNotification⟩),
       ("x", ⟨"/services/a", 2, InstanceRemoveNotification⟩)] :=
  ⟨((C5_remove_carries_last_known unmarshalNat).1
      ⟨∅, (∅ : GoMap Nat).insert "/services/a" 7⟩ 0 (delEvent 1 "/services/a") 7
      rfl rfl rfl).1,
   (C5_remove_carries_last_known unmarshalNat).2
      (recordListener (NewInstanceMonitor Nat) "x" listenerA) 0 1 2 3 "x" "/services/a"
      listenerA [1] [2] [] 1 2 rfl rfl rfl rfl rfl⟩

end WatchClaims

/-! ## Attach interleaved with notifications, and the order of delivery -/

section OrderClaims

variable {σ : Type}

theorem muxNotification_clients (im : Monitor σ) (n : InstanceMonitorNotification σ) :
    (muxNotification im n).1.clients = im.clients := rfl

/-- C6, evaluated: a listener whose query matches every path is attached under
`x` to a fresh monitor.  `mux` builds its snapshot, then applies an Add for
`/services/a`, and only then does the caller of `Listen` record the listener in
`clients`.  The notification matches the query, the instance map holds it and
the listener is registered, yet it is neither in the snapshot nor was a
goroutine started for it on the listener. -/
theorem C6_notification_between_snapshot_and_record_is_lost :
    listenerAll.query.PathMatches "/services/a" = true ∧
    (attachRun "x" ⟨NewInstanceMonitor Nat, listenerAll, []⟩
      [.snapshot, .notification ⟨"/services/a", 1, InstanceAddNotification⟩,
       .record]).listener.Instances.lookup "/services/a" = none ∧
    startedFor "x" (attachRun "x" ⟨NewInstanceMonitor Nat, listenerAll, []⟩
      [.snapshot, .notification ⟨"/services/a", 1, InstanceAddNotification⟩,
       .record]).started = [] ∧
    (attachRun "x" ⟨NewInstanceMonitor Nat, listenerAll, []⟩
      [.snapshot, .notification ⟨"/services/a", 1, InstanceAddNotification⟩,
       .record]).im.instances.lookup "/services/a" = some 1 ∧
    ((attachRun "x" ⟨NewInstanceMonitor Nat, listenerAll, []⟩
      [.snapshot, .notification ⟨"/services/a", 1, InstanceAddNotification⟩,
       .record]).im.clients.lookup "x").isSome = true :=
  ⟨rfl, rfl, rfl, rfl, rfl⟩

/-- C7 (amended): the goroutines `mux` starts on the listener registered under
an id while applying the notifications `ns` are, in the order they are started,
the calls `notify(n)` for the notifications `n` of `ns` whose path matches the
query of that listener, in the order of `ns`. -/
theorem C7_goroutines_started_in_application_order (im : Monitor σ)
    (ns : List (InstanceMonitorNotification σ)) (id : String) :
    startedFor id (muxNotifications im ns).2 =
      match im.clients.lookup id with
      | some c => (ns.filter (fun n => c.query.PathMatches n.Path)).map (fun n => (id, n))
      | none => [] := by
  induction ns generalizing im with
  | nil => cases im.clients.lookup id <;> rfl
  | cons n ns ih =>
    simp only [muxNotifications]
    rw [startedFor_append, ih, muxNotification_clients]
    have hfan : startedFor id (muxNotification im n).2 =
        match im.clients.lookup id with
        | some c => if c.query.PathMatches n.Path then [(id, n)] else []
        | none => [] := startedFor_fanOut im.clients n id
    rw [hfan]
    cases im.clients.lookup id with
    | none => rfl
    | some c =>
      by_cases hq : c.query.PathMatches n.Path = true
      · simp [hq]
      · simp [hq]

/-- Counterexample to C7 as stated: a listener matching every path is registered
under `x`; `mux` applies an Add and then an Update for `/services/a`, starting
one goroutine for each; the scheduler runs the second goroutine first, so
`notify` runs on the listener with the Update before it runs with the Add. -/
theorem C7_later_notification_can_run_first :
    (schedRun (recordListener (NewInstanceMonitor Nat) "x" listenerAll, ⟨[], []⟩)
      [.mux ⟨"/services/a", 1, InstanceAddNotification⟩,
       .mux ⟨"/services/a", 2, InstanceUpdateNotification⟩,
       .run 1, .run 0]).2.ran =
      [("x", ⟨"/services/a", 2, InstanceUpdateNotification⟩),
       ("x", ⟨"/services/a", 1, InstanceAddNotification⟩)] :=
  rfl

end OrderClaims

end InstanceMonitor
